import Mathlib

/-!
Shallow embedding of the rooch state-view, indexer-schema, gas-schedule and
account-import components, with theorems checking the specification's claims.

Sources embedded:
- crates/rooch-rpc-api/src/jsonrpc_types/state_view.rs
- crates/rooch-indexer/src/schema.rs
- crates/rooch-framework/src/natives/gas_parameter/table_extension.rs
- crates/rooch/src/commands/account/commands/import.rs

External collaborator types (move_core_types, moveos_types, serde_json,
the keystore) are modelled abstractly: their internals never influence the
verified control flow, which comes from the embedded source files.
-/

/-- Generic comparison on naturals mirroring the semantics of a derived
Rust `Ord` on integer fields. -/
def natCmp (a b : Nat) : Ordering :=
  if a < b then .lt else if b < a then .gt else .eq

/-- Lexicographic comparison of byte vectors, mirroring `Vec<u8>`'s `Ord`
(elementwise, shorter strict prefix is smaller). -/
def listNatCmp : List Nat → List Nat → Ordering
  | [], [] => .eq
  | [], _ :: _ => .lt
  | _ :: _, [] => .gt
  | x :: xs, y :: ys =>
    match natCmp x y with
    | .eq => listNatCmp xs ys
    | o => o

/-- Comparison on `Option`, mirroring Rust's derived `Ord` for `Option`
(`None` is smaller than any `Some`). -/
def optCmp (cmp : α → α → Ordering) : Option α → Option α → Ordering
  | none, none => .eq
  | none, some _ => .lt
  | some _, none => .gt
  | some a, some b => cmp a b

/-- Move `TypeTag` (external, from move_core_types), modelled with enough
structure to be a nontrivial ordered type; struct tags carry an opaque
canonical identifier. -/
inductive TypeTag where
  | bool
  | u8
  | u64
  | u128
  | address
  | signer
  | vector (elem : TypeTag)
  | structTag (canonical : Nat)
deriving DecidableEq

/-- Constructor rank of a `TypeTag`, used to compare across constructors the
way a derived `Ord` on an enum compares discriminants. -/
def typeTagRank : TypeTag → Nat
  | .bool => 0
  | .u8 => 1
  | .u64 => 2
  | .u128 => 3
  | .address => 4
  | .signer => 5
  | .vector _ => 6
  | .structTag _ => 7

/-- Total comparison on `TypeTag` mirroring a derived `Ord`: discriminant
first, then the payload of equal constructors. -/
def typeTagCmp : TypeTag → TypeTag → Ordering
  | .vector a, .vector b => typeTagCmp a b
  | .structTag a, .structTag b => natCmp a b
  | a, b => natCmp (typeTagRank a) (typeTagRank b)

/-- `StrView<T>` wrapper from the jsonrpc_types module: a transparent
newtype used for string-rendered wire fields. -/
structure StrView (α : Type) where
  v : α
deriving DecidableEq

/-- `AnnotatedMoveValueView` (external, decoded human-readable value);
opaque payload, ordered, presentation-only. -/
structure AnnotatedMoveValueView where
  payload : Nat
deriving DecidableEq

/-- `AnnotatedMoveStructView` (external, decoded human-readable struct). -/
structure AnnotatedMoveStructView where
  payload : Nat
deriving DecidableEq

/-- Comparison of `AnnotatedMoveValueView` values (delegated `Ord`). -/
def annotatedMoveValueCmp (a b : AnnotatedMoveValueView) : Ordering :=
  natCmp a.payload b.payload

/-- Move `AccountAddress` (external), modelled as an opaque identifier. -/
structure AccountAddress where
  val : Nat
deriving DecidableEq

/-- `ObjectID` handle (external moveos type), an opaque identifier. -/
structure ObjectID where
  val : Nat
deriving DecidableEq

/-- Move `StructTag` (external), opaque canonical identifier. -/
structure StructTag where
  canonical : Nat
deriving DecidableEq

/-- `BytesView = StrView<Vec<u8>>`. -/
abbrev BytesView := StrView (List Nat)

/-- `TypeTagView = StrView<TypeTag>`. -/
abbrev TypeTagView := StrView TypeTag

/-- `AccountAddressView = StrView<AccountAddress>`. -/
abbrev AccountAddressView := StrView AccountAddress

/-- `StructTagView = StrView<StructTag>`. -/
abbrev StructTagView := StrView StructTag

/-- Canonical `State`: value bytes plus value type (moveos_types). -/
structure State where
  value : List Nat
  value_type : TypeTag
deriving DecidableEq

/-- `StateView` from state_view.rs: wire form of `State` plus an optional
decoded value. -/
structure StateView where
  value : BytesView
  value_type : TypeTagView
  decoded_value : Option AnnotatedMoveValueView
deriving DecidableEq

/-- `impl From<State> for StateView`: wraps the bytes and type, leaves
`decoded_value` as `None`. -/
def StateView.ofState (state : State) : StateView :=
  { value := ⟨state.value⟩
    value_type := ⟨state.value_type⟩
    decoded_value := none }

/-- `impl From<StateView> for State`: unwraps the bytes and type, discarding
`decoded_value`. -/
def State.ofView (state : StateView) : State :=
  { value := state.value.v
    value_type := state.value_type.v }

/-- Canonical `KeyState`: key bytes plus key type (moveos_types). -/
structure KeyState where
  key : List Nat
  key_type : TypeTag
deriving DecidableEq

/-- `KeyStateView` from state_view.rs. Field order matters: the Rust struct
derives `Ord, Eq, PartialOrd, PartialEq`, which compare fields in declaration
order `key`, `key_type`, `decoded_key`. -/
structure KeyStateView where
  key : BytesView
  key_type : TypeTagView
  decoded_key : Option AnnotatedMoveValueView
deriving DecidableEq

/-- `impl From<KeyState> for KeyStateView`: wraps the key and type, leaves
`decoded_key` as `None`. -/
def KeyStateView.ofKeyState (state : KeyState) : KeyStateView :=
  { key := ⟨state.key⟩
    key_type := ⟨state.key_type⟩
    decoded_key := none }

/-- `impl From<KeyStateView> for KeyState`: unwraps key and type, discarding
`decoded_key`. -/
def KeyState.ofView (state : KeyStateView) : KeyState :=
  { key := state.key.v
    key_type := state.key_type.v }

/-- Derived `Ord` on `KeyStateView`: lexicographic over the fields in
declaration order (`key`, then `key_type`, then `decoded_key`), each compared
by its own derived `Ord`. -/
def keyStateViewCmp (a b : KeyStateView) : Ordering :=
  match listNatCmp a.key.v b.key.v with
  | .eq =>
    match typeTagCmp a.key_type.v b.key_type.v with
    | .eq => optCmp annotatedMoveValueCmp a.decoded_key b.decoded_key
    | o => o
  | o => o

/-- `impl FromStr for KeyStateView`: parses a `KeyState` with the external
`KeyState::from_str` (modelled as the `parse` parameter) and converts it with
`KeyStateView::from`, so `decoded_key` is ignored/absent. -/
def KeyStateView.fromStr (parse : String → Except String KeyState)
    (s : String) : Except String KeyStateView :=
  (parse s).map KeyStateView.ofKeyState

/-- `Op<State>` (move_core_types effects::Op instantiated at `State`): tagged
variant New / Modify / Delete; Delete carries no payload. -/
inductive Op where
  | new (data : State)
  | modify (data : State)
  | delete
deriving DecidableEq

/-- `OpView<StateView>` from state_view.rs. -/
inductive OpView where
  | new (data : StateView)
  | modify (data : StateView)
  | delete
deriving DecidableEq

/-- `impl From<Op<State>> for OpView<StateView>`. -/
def OpView.ofOp : Op → OpView
  | .new data => .new (StateView.ofState data)
  | .modify data => .modify (StateView.ofState data)
  | .delete => .delete

/-- `impl From<OpView<StateView>> for Op<State>`. -/
def Op.ofView : OpView → Op
  | .new data => .new (State.ofView data)
  | .modify data => .modify (State.ofView data)
  | .delete => .delete

/-- Canonical `TableChange` (moveos_types): the per-handle entry map
(iterated in canonical key order, embedded as its iteration sequence) plus
the signed net entry-count delta. -/
structure TableChange where
  entries : List (KeyState × Op)
  size_increment : Int
deriving DecidableEq

/-- `DynamicFieldView` from state_view.rs: one `(key, op)` wire entry. -/
structure DynamicFieldView where
  k : KeyStateView
  v : OpView
deriving DecidableEq

/-- `TableChangeView` from state_view.rs. -/
structure TableChangeView where
  entries : List DynamicFieldView
  size_increment : Int
deriving DecidableEq

/-- `impl From<TableChange> for TableChangeView`: converts each entry pair
into a `DynamicFieldView` and copies `size_increment`. -/
def TableChangeView.ofTableChange (table_change : TableChange) : TableChangeView :=
  { entries := table_change.entries.map fun kv =>
      { k := KeyStateView.ofKeyState kv.1, v := OpView.ofOp kv.2 }
    size_increment := table_change.size_increment }

/-- `impl From<TableChangeView> for TableChange`: converts each
`DynamicFieldView` back to a `(KeyState, Op<State>)` pair and copies
`size_increment`. -/
def TableChange.ofView (table_change : TableChangeView) : TableChange :=
  { entries := table_change.entries.map fun kv => (KeyState.ofView kv.k, Op.ofView kv.v)
    size_increment := table_change.size_increment }

/-- Canonical `StateChangeSet` (moveos_types): new/removed table-handle sets
and per-handle changes; the ordered containers are embedded as their
canonical iteration sequences. -/
structure StateChangeSet where
  new_tables : List ObjectID
  removed_tables : List ObjectID
  changes : List (ObjectID × TableChange)
deriving DecidableEq

/-- `StateChangeSetView` from state_view.rs. -/
structure StateChangeSetView where
  new_tables : List ObjectID
  removed_tables : List ObjectID
  changes : List (ObjectID × TableChangeView)
deriving DecidableEq

/-- `impl From<StateChangeSet> for StateChangeSetView`: copies both handle
sets and converts each `TableChange` per handle. -/
def StateChangeSetView.ofStateChangeSet (cs : StateChangeSet) : StateChangeSetView :=
  { new_tables := cs.new_tables
    removed_tables := cs.removed_tables
    changes := cs.changes.map fun kv => (kv.1, TableChangeView.ofTableChange kv.2) }

/-- `impl From<StateChangeSetView> for StateChangeSet`: copies both handle
sets and converts each `TableChangeView` back per handle. -/
def StateChangeSet.ofView (cs : StateChangeSetView) : StateChangeSet :=
  { new_tables := cs.new_tables
    removed_tables := cs.removed_tables
    changes := cs.changes.map fun kv => (kv.1, TableChange.ofView kv.2) }

/-- Persisted `IndexerGlobalState` row (rooch_types indexer state), with the
stored decoded-value JSON kept as raw text. -/
structure IndexerGlobalState where
  object_id : ObjectID
  owner : AccountAddress
  flag : Nat
  value : String
  object_type : StructTag
  state_root : AccountAddress
  size : Nat
  tx_order : Nat
  state_index : Nat
  created_at : Nat
  updated_at : Nat
deriving DecidableEq

/-- `IndexerGlobalStateView` from state_view.rs: note `value` is a mandatory
`AnnotatedMoveStructView`, not an `Option`. -/
structure IndexerGlobalStateView where
  object_id : ObjectID
  owner : AccountAddressView
  flag : Nat
  value : AnnotatedMoveStructView
  object_type : StructTagView
  state_root : AccountAddressView
  size : Nat
  tx_order : Nat
  state_index : Nat
  created_at : Nat
  updated_at : Nat
deriving DecidableEq

/-- `IndexerGlobalStateView::try_new_from_global_state`: decodes the stored
`value` text with `serde_json::from_str` (modelled as the `decode` parameter)
using the `?` operator, so a decode failure is returned as `Err`. -/
def IndexerGlobalStateView.tryNewFromGlobalState
    (decode : String → Except String AnnotatedMoveStructView)
    (state : IndexerGlobalState) : Except String IndexerGlobalStateView :=
  match decode state.value with
  | .error e => .error e
  | .ok value =>
    .ok { object_id := state.object_id
          owner := ⟨state.owner⟩
          flag := state.flag
          value := value
          object_type := ⟨state.object_type⟩
          state_root := ⟨state.state_root⟩
          size := state.size
          tx_order := state.tx_order
          state_index := state.state_index
          created_at := state.created_at
          updated_at := state.updated_at }

/-- Persisted `IndexerTableState` row, with the stored decoded-key and
decoded-value JSON kept as raw text. -/
structure IndexerTableState where
  table_handle : ObjectID
  key_hex : String
  key_str : String
  value : String
  key_type : TypeTag
  value_type : TypeTag
  tx_order : Nat
  state_index : Nat
  created_at : Nat
  updated_at : Nat
deriving DecidableEq

/-- `IndexerTableStateView` from state_view.rs: `key` and `value` are
mandatory `AnnotatedMoveValueView`s, not `Option`s. -/
structure IndexerTableStateView where
  table_handle : ObjectID
  key_hex : String
  key : AnnotatedMoveValueView
  value : AnnotatedMoveValueView
  key_type : TypeTagView
  value_type : TypeTagView
  tx_order : Nat
  state_index : Nat
  created_at : Nat
  updated_at : Nat
deriving DecidableEq

/-- `IndexerTableStateView::try_new_from_table_state`: decodes `key_str`
then `value` with `serde_json::from_str` (modelled as `decode`), each via
`?`, so the first decode failure is returned as `Err`. -/
def IndexerTableStateView.tryNewFromTableState
    (decode : String → Except String AnnotatedMoveValueView)
    (state : IndexerTableState) : Except String IndexerTableStateView :=
  match decode state.key_str with
  | .error e => .error e
  | .ok key =>
    match decode state.value with
    | .error e => .error e
    | .ok value =>
      .ok { table_handle := state.table_handle
            key_hex := state.key_hex
            key := key
            value := value
            key_type := ⟨state.key_type⟩
            value_type := ⟨state.value_type⟩
            tx_order := state.tx_order
            state_index := state.state_index
            created_at := state.created_at
            updated_at := state.updated_at }

/-- Whether an `Except` computation succeeded. -/
def exceptIsOk : Except ε α → Bool
  | .ok _ => true
  | .error _ => false

/-- `GlobalStateFilterView` from state_view.rs. -/
inductive GlobalStateFilterView where
  | objectTypeWithOwner (object_type : StructTagView) (owner : AccountAddressView)
  | objectType (object_type : StructTagView)
  | owner (owner : AccountAddressView)
  | objectId (object_id : ObjectID)
  | multiChainAddress (multichain_id : Nat) (address : String)
deriving DecidableEq

/-- Canonical `GlobalStateFilter` (rooch_types indexer state): note it has no
multichain variant. -/
inductive GlobalStateFilter where
  | objectTypeWithOwner (object_type : StructTag) (owner : AccountAddress)
  | objectType (object_type : StructTag)
  | owner (owner : AccountAddress)
  | objectId (object_id : ObjectID)
deriving DecidableEq

/-- `GlobalStateFilterView::into_global_state_filter`: every variant maps
field-for-field to its same-named canonical variant, except
`MultiChainAddress`, which ignores both its fields and yields
`Owner(resolve_address)`. -/
def GlobalStateFilterView.intoGlobalStateFilter
    (state_filter : GlobalStateFilterView)
    (resolve_address : AccountAddress) : GlobalStateFilter :=
  match state_filter with
  | .objectTypeWithOwner ot ow => .objectTypeWithOwner ot.v ow.v
  | .objectType ot => .objectType ot.v
  | .owner ow => .owner ow.v
  | .objectId oid => .objectId oid
  | .multiChainAddress _ _ => .owner resolve_address

/-- `TableStateFilterView` / canonical `TableStateFilter`: query by table
handle. -/
inductive TableStateFilterView where
  | tableHandle (table_handle : ObjectID)
deriving DecidableEq

/-- Canonical `TableStateFilter`. -/
inductive TableStateFilter where
  | tableHandle (table_handle : ObjectID)
deriving DecidableEq

/-- `impl From<TableStateFilterView> for TableStateFilter`. -/
def TableStateFilter.ofView : TableStateFilterView → TableStateFilter
  | .tableHandle table_handle => .tableHandle table_handle

/-- Gas parameters of the `table_extension` native module
(gas_parameter/table_extension.rs), as natural-number cost amounts. -/
structure TableExtensionGasParameters where
  load_base : Nat
  load_per_byte : Nat
  load_failure : Nat
  add_box_base : Nat
  add_box_per_byte_serialized : Nat
  borrow_box_base : Nat
  borrow_box_per_byte_serialized : Nat
  contains_box_base : Nat
  contains_box_per_byte_serialized : Nat
  remove_box_base : Nat
  remove_box_per_byte_serialized : Nat
  drop_unchecked_box_base : Nat
  box_length_base : Nat
deriving DecidableEq

/-- The declared `table_extension` gas schedule, parameterized by the
protocol-wide scaling constant `MUL` (declared in the external
gas_parameter/native module). -/
def tableExtensionGasSchedule (MUL : Nat) : TableExtensionGasParameters :=
  { load_base := 1000 * MUL
    load_per_byte := 10 * MUL
    load_failure := 5 * MUL
    add_box_base := 500 * MUL
    add_box_per_byte_serialized := 10 * MUL
    borrow_box_base := 500 * MUL
    borrow_box_per_byte_serialized := 10 * MUL
    contains_box_base := 500 * MUL
    contains_box_per_byte_serialized := 10 * MUL
    remove_box_base := 500 * MUL
    remove_box_per_byte_serialized := 10 * MUL
    drop_unchecked_box_base := 100 * MUL
    box_length_base := 100 * MUL }

/-- Modelled from the spec: the charging formula of the Box Store natives is
`base + per_byte_serialized * encoded_size` (the native implementations that
apply the schedule live outside the embedded sources). Cost of `add_box` on a
value whose serialized size is `n`. -/
def addBoxCost (p : TableExtensionGasParameters) (n : Nat) : Nat :=
  p.add_box_base + p.add_box_per_byte_serialized * n

/-- Modelled from the spec: a successful `load` of an entry of serialized
size `n` is charged `load_base + load_per_byte * n`. -/
def loadCost (p : TableExtensionGasParameters) (n : Nat) : Nat :=
  p.load_base + p.load_per_byte * n

/-- Modelled from the spec: `drop_unchecked_box` is charged a flat base,
whatever the table's prior entry count `priorSize` is. -/
def dropUncheckedBoxCost (p : TableExtensionGasParameters) (_priorSize : Nat) : Nat :=
  p.drop_unchecked_box_base

/-- Modelled from the spec: `box_length` is charged a flat base, whatever the
table's entry count `entryCount` is. -/
def boxLengthCost (p : TableExtensionGasParameters) (_entryCount : Nat) : Nat :=
  p.box_length_base

/-- Diesel column types appearing in the indexer schema. -/
inductive ColType where
  | text
  | bigint
  | smallint
  | binary
deriving DecidableEq

/-- One `diesel::table!` declaration: name, primary-key columns, and the
declared columns with their types. -/
structure SchemaTable where
  name : String
  primaryKey : List String
  columns : List (String × ColType)
deriving DecidableEq

/-- The `events` table of schema.rs. -/
def events : SchemaTable :=
  { name := "events"
    primaryKey := ["event_index", "tx_order"]
    columns :=
      [("event_handle_id", .text), ("event_seq", .bigint), ("event_type", .text),
       ("event_data", .binary), ("event_index", .bigint), ("tx_hash", .text),
       ("tx_order", .bigint), ("sender", .text), ("created_at", .bigint)] }

/-- The `global_states` table of schema.rs. -/
def global_states : SchemaTable :=
  { name := "global_states"
    primaryKey := ["object_id"]
    columns :=
      [("object_id", .text), ("owner", .text), ("flag", .smallint),
       ("value", .text), ("state_root", .text), ("size", .bigint),
       ("object_type", .text), ("tx_order", .bigint), ("state_index", .bigint),
       ("created_at", .bigint), ("updated_at", .bigint)] }

/-- The `table_change_sets` table of schema.rs. -/
def table_change_sets : SchemaTable :=
  { name := "table_change_sets"
    primaryKey := ["tx_order", "state_index"]
    columns :=
      [("tx_order", .bigint), ("state_index", .bigint), ("table_handle", .text),
       ("table_change_set", .text), ("created_at", .bigint)] }

/-- The `table_states` table of schema.rs. -/
def table_states : SchemaTable :=
  { name := "table_states"
    primaryKey := ["table_handle", "key_hex"]
    columns :=
      [("table_handle", .text), ("key_hex", .text), ("key_str", .text),
       ("value", .text), ("key_type", .text), ("value_type", .text),
       ("tx_order", .bigint), ("state_index", .bigint),
       ("created_at", .bigint), ("updated_at", .bigint)] }

/-- The `transactions` table of schema.rs. -/
def transactions : SchemaTable :=
  { name := "transactions"
    primaryKey := ["tx_order"]
    columns :=
      [("tx_order", .bigint), ("tx_hash", .text), ("transaction_type", .text),
       ("sequence_number", .bigint), ("multichain_id", .bigint),
       ("multichain_address", .text), ("multichain_original_address", .text),
       ("sender", .text), ("action", .text), ("action_type", .smallint),
       ("action_raw", .binary), ("auth_validator_id", .bigint),
       ("authenticator_payload", .binary), ("tx_accumulator_root", .text),
       ("transaction_raw", .binary), ("state_root", .text), ("event_root", .text),
       ("gas_used", .bigint), ("status", .text),
       ("tx_order_auth_validator_id", .bigint),
       ("tx_order_authenticator_payload", .binary), ("created_at", .bigint)] }

/-- All indexer tables of schema.rs. -/
def indexerSchema : List SchemaTable :=
  [events, global_states, table_change_sets, table_states, transactions]

/-- The wallet context built by `WalletContextOptions::build` (external),
opaque. -/
structure WalletContext where
  keystoreId : Nat
deriving DecidableEq

/-- `ImportCommand` from import.rs: the mnemonic phrase given on the command
line. -/
structure ImportCommand where
  mnemonic_phrase : String
deriving DecidableEq

/-- Observable effects of running the import command: a line printed to
standard output, or an attempt to import a mnemonic into the keystore. -/
inductive CliEvent where
  | stdout (line : String)
  | keystoreImportAttempt (mnemonic : String)
deriving DecidableEq

/-- Rust `Debug` formatting of a `String`: the text between double quotes,
with backslashes and double quotes escaped. -/
def rustDebugFormat (s : String) : String :=
  "\"" ++ String.join (s.toList.map fun c =>
    if c = '"' then "\\\"" else if c = '\\' then "\\\\" else String.singleton c) ++ "\""

/-- Debug text of `KeyPairType::RoochKeyPairType.type_of()` (external). -/
def roochKeyPairTypeDebug : String := "RoochKeyPairType"

/-- The success line printed after a keystore import. -/
def importSuccessMessage (addr : AccountAddress) : String :=
  "Key imported for address on type " ++ roochKeyPairTypeDebug ++ ": ["
    ++ toString addr.val ++ "]"

/-- `ImportCommand::execute` from import.rs as a trace of observable effects
plus a result. The external collaborators are parameters: `buildContext`
models `self.context_options.build()`, `importFromMnemonic` models
`keystore.import_from_mnemonic`. The first statement of the function body is
`println!("{:?}", self.mnemonic_phrase)`; the keystore import only happens
afterwards, and its error is wrapped in `ImportAccountError`. -/
def importCommandTrace (cmd : ImportCommand)
    (buildContext : Except String WalletContext)
    (importFromMnemonic : WalletContext → String → Except String AccountAddress) :
    List CliEvent × Except String Unit :=
  let first := CliEvent.stdout (rustDebugFormat cmd.mnemonic_phrase)
  match buildContext with
  | .error e => ([first], .error e)
  | .ok ctx =>
    match importFromMnemonic ctx cmd.mnemonic_phrase with
    | .error e =>
      ([first, .keystoreImportAttempt cmd.mnemonic_phrase],
       .error ("ImportAccountError: " ++ e))
    | .ok addr =>
      ([first, .keystoreImportAttempt cmd.mnemonic_phrase,
        .stdout (importSuccessMessage addr)],
       .ok ())

/-- A `KeyStateView` with no decoded key. -/
def c3SameKeyNoDecoded : KeyStateView :=
  { key := ⟨[7]⟩, key_type := ⟨.u64⟩, decoded_key := none }

/-- The same key and key type as `c3SameKeyNoDecoded`, but with a decoded
key present. -/
def c3SameKeyWithDecoded : KeyStateView :=
  { key := ⟨[7]⟩, key_type := ⟨.u64⟩, decoded_key := some ⟨5⟩ }

/-- A view whose key bytes are smaller but whose key type is larger than
`c3BigBytesSmallType`. -/
def c3SmallBytesBigType : KeyStateView :=
  { key := ⟨[0]⟩, key_type := ⟨.u8⟩, decoded_key := none }

/-- A view whose key bytes are larger but whose key type is smaller than
`c3SmallBytesBigType`. -/
def c3BigBytesSmallType : KeyStateView :=
  { key := ⟨[1]⟩, key_type := ⟨.bool⟩, decoded_key := none }

/-- A decode outcome in which `serde_json::from_str` fails (the stored text
is not valid JSON for the expected shape). -/
def c2FailStructDecode : String → Except String AnnotatedMoveStructView :=
  fun _ => .error "expected value at line 1 column 1"

/-- A decode outcome in which `serde_json::from_str` fails for an
`AnnotatedMoveValueView`. -/
def c2FailValueDecode : String → Except String AnnotatedMoveValueView :=
  fun _ => .error "expected value at line 1 column 1"

/-- A persisted global-state row whose stored `value` text does not decode. -/
def c2GlobalRow : IndexerGlobalState :=
  { object_id := ⟨1⟩, owner := ⟨2⟩, flag := 0, value := "not json",
    object_type := ⟨3⟩, state_root := ⟨4⟩, size := 0, tx_order := 0,
    state_index := 0, created_at := 0, updated_at := 0 }

/-- A persisted table-state row whose stored texts do not decode. -/
def c2TableRow : IndexerTableState :=
  { table_handle := ⟨1⟩, key_hex := "0x01", key_str := "not json",
    value := "not json", key_type := .u64, value_type := .u64,
    tx_order := 0, state_index := 0, created_at := 0, updated_at := 0 }

/-- A `StateView` with no decoded value. -/
def c8StateViewA : StateView :=
  { value := ⟨[1, 2]⟩, value_type := ⟨.u8⟩, decoded_value := none }

/-- The same wire fields as `c8StateViewA`, but with a decoded value. -/
def c8StateViewB : StateView :=
  { value := ⟨[1, 2]⟩, value_type := ⟨.u8⟩, decoded_value := some ⟨7⟩ }

/-- A `KeyStateView` with no decoded key. -/
def c8KeyViewA : KeyStateView :=
  { key := ⟨[3]⟩, key_type := ⟨.u64⟩, decoded_key := none }

/-- The same wire fields as `c8KeyViewA`, but with a decoded key. -/
def c8KeyViewB : KeyStateView :=
  { key := ⟨[3]⟩, key_type := ⟨.u64⟩, decoded_key := some ⟨9⟩ }

/-- A parse outcome in which the external `KeyState::from_str` succeeds. -/
def c8Parse : String → Except String KeyState :=
  fun _ => .ok { key := [3], key_type := .u64 }

/-- `natCmp` answers `eq` exactly on equal naturals. -/
theorem natCmp_eq_iff (a b : Nat) : natCmp a b = .eq ↔ a = b := by
  rcases Nat.lt_trichotomy a b with h | h | h
  · simp only [natCmp, if_pos h]
    simp
    omega
  · subst h
    simp [natCmp]
  · simp only [natCmp, if_neg (Nat.lt_asymm h), if_pos h]
    simp
    omega

/-- `listNatCmp` answers `eq` exactly on equal byte vectors. -/
theorem listNatCmp_eq_iff : ∀ (xs ys : List Nat), listNatCmp xs ys = .eq ↔ xs = ys
  | [], [] => by simp [listNatCmp]
  | [], _ :: _ => by simp [listNatCmp]
  | _ :: _, [] => by simp [listNatCmp]
  | x :: xs, y :: ys => by
    simp only [listNatCmp, List.cons.injEq]
    cases h : natCmp x y with
    | eq =>
      have hxy := (natCmp_eq_iff x y).mp h
      simp [hxy, listNatCmp_eq_iff xs ys]
    | lt =>
      have hne : ¬ x = y := by
        intro he; subst he
        rw [(natCmp_eq_iff x x).mpr rfl] at h
        simp at h
      simp [hne]
    | gt =>
      have hne : ¬ x = y := by
        intro he; subst he
        rw [(natCmp_eq_iff x x).mpr rfl] at h
        simp at h
      simp [hne]

/-- `typeTagCmp` answers `eq` exactly on equal type tags. -/
theorem typeTagCmp_eq_iff (a b : TypeTag) : typeTagCmp a b = .eq ↔ a = b := by
  induction a generalizing b <;> cases b <;>
    simp [typeTagCmp, typeTagRank, natCmp_eq_iff, *]

/-- `New`/`Modify`/`Delete` round-trip through the view untouched. -/
theorem op_roundtrip (o : Op) : Op.ofView (OpView.ofOp o) = o := by
  cases o <;> rfl

/-- Entry lists of a `TableChange` round-trip through `DynamicFieldView`s. -/
theorem tableChangeEntries_roundtrip (l : List (KeyState × Op)) :
    ((l.map fun kv =>
        DynamicFieldView.mk (KeyStateView.ofKeyState kv.1) (OpView.ofOp kv.2)).map
      fun kv => (KeyState.ofView kv.k, Op.ofView kv.v)) = l := by
  induction l with
  | nil => rfl
  | cons kv rest ih =>
    obtain ⟨k, v⟩ := kv
    simp only [List.map_cons, List.cons.injEq]
    exact ⟨by cases v <;> rfl, ih⟩

/-- A `TableChange` round-trips through `TableChangeView`. -/
theorem tableChange_roundtrip (t : TableChange) :
    TableChange.ofView (TableChangeView.ofTableChange t) = t := by
  obtain ⟨entries, inc⟩ := t
  simp only [TableChangeView.ofTableChange, TableChange.ofView,
    TableChange.mk.injEq, and_true]
  exact tableChangeEntries_roundtrip entries

/-- The per-handle change map round-trips through the view. -/
theorem changesEntries_roundtrip (l : List (ObjectID × TableChange)) :
    ((l.map fun kv => (kv.1, TableChangeView.ofTableChange kv.2)).map
      fun kv => (kv.1, TableChange.ofView kv.2)) = l := by
  induction l with
  | nil => rfl
  | cons kv rest ih =>
    obtain ⟨k, v⟩ := kv
    simp only [List.map_cons, List.cons.injEq]
    exact ⟨by rw [tableChange_roundtrip], ih⟩

/-- C1: for every `State` `s`, the round-trip `State -> StateView -> State`
yields a `State` equal to `s`: the value bytes and value type are preserved
exactly. -/
theorem c1_state_view_roundtrip (s : State) :
    State.ofView (StateView.ofState s) = s := rfl

/-- C2 counterexample: constructing the view of a persisted row whose stored
value (or decoded-key) text fails to decode returns a hard failure (`Err`),
refuting the claim that view construction never hard-fails on a decode
error. -/
theorem c2_counterexample :
    IndexerGlobalStateView.tryNewFromGlobalState c2FailStructDecode c2GlobalRow
      = .error "expected value at line 1 column 1"
  ∧ IndexerTableStateView.tryNewFromTableState c2FailValueDecode c2TableRow
      = .error "expected value at line 1 column 1" := ⟨rfl, rfl⟩

/-- C2 (amended): view construction for persisted IndexerGlobalState and
IndexerTableState rows propagates decode failures as hard errors: the
constructor returns `Ok` exactly when every decode of the stored text
succeeds, and the decoded fields of the views are mandatory, so no view is
ever returned with a decoded field absent. -/
theorem c2_decode_failure_propagates :
    (∀ (decode : String → Except String AnnotatedMoveStructView)
        (st : IndexerGlobalState),
        exceptIsOk (IndexerGlobalStateView.tryNewFromGlobalState decode st)
          = exceptIsOk (decode st.value))
  ∧ (∀ (decode : String → Except String AnnotatedMoveValueView)
        (st : IndexerTableState),
        exceptIsOk (IndexerTableStateView.tryNewFromTableState decode st)
          = (exceptIsOk (decode st.key_str) && exceptIsOk (decode st.value))) := by
  constructor
  · intro decode st
    unfold IndexerGlobalStateView.tryNewFromGlobalState
    cases decode st.value <;> rfl
  · intro decode st
    unfold IndexerTableStateView.tryNewFromTableState
    cases decode st.key_str with
    | error e => rfl
    | ok k => cases decode st.value <;> rfl

/-- C3 counterexample: two `KeyStateView`s with identical key bytes and key
type but different `decoded_key` are unequal and compare as `lt` (so
`decoded_key` does participate in Eq/Ord), and a pair where the byte order
and the type order disagree is ordered by bytes, not type-first. -/
theorem c3_counterexample :
    c3SameKeyNoDecoded.key = c3SameKeyWithDecoded.key
  ∧ c3SameKeyNoDecoded.key_type = c3SameKeyWithDecoded.key_type
  ∧ c3SameKeyNoDecoded ≠ c3SameKeyWithDecoded
  ∧ keyStateViewCmp c3SameKeyNoDecoded c3SameKeyWithDecoded = .lt
  ∧ typeTagCmp c3SmallBytesBigType.key_type.v c3BigBytesSmallType.key_type.v = .gt
  ∧ keyStateViewCmp c3SmallBytesBigType c3BigBytesSmallType = .lt := by
  decide

/-- C3 (amended): the derived comparison on `KeyStateView` is the
lexicographic order over the fields in declaration order — key bytes first,
then key type, then `decoded_key` — so `decoded_key` participates in both
equality and ordering: the comparison answers `eq` exactly on structurally
equal views (`decoded_key` included), and whenever the key bytes differ the
whole comparison is the byte comparison. -/
theorem c3_derived_comparison (a b : KeyStateView) :
    (keyStateViewCmp a b = .eq ↔ a = b)
  ∧ (listNatCmp a.key.v b.key.v ≠ .eq →
      keyStateViewCmp a b = listNatCmp a.key.v b.key.v) := by
  obtain ⟨⟨ak⟩, ⟨atp⟩, ad⟩ := a
  obtain ⟨⟨bk⟩, ⟨btp⟩, bd⟩ := b
  refine ⟨?_, ?_⟩
  · simp only [keyStateViewCmp]
    cases h1 : listNatCmp ak bk with
    | eq =>
      have hk := (listNatCmp_eq_iff ak bk).mp h1
      subst hk
      cases h2 : typeTagCmp atp btp with
      | eq =>
        have ht := (typeTagCmp_eq_iff atp btp).mp h2
        subst ht
        rcases ad with _ | ⟨⟨px⟩⟩ <;> rcases bd with _ | ⟨⟨py⟩⟩ <;>
          simp [optCmp, annotatedMoveValueCmp, natCmp_eq_iff,
            AnnotatedMoveValueView.mk.injEq]
      | lt =>
        have ht : ¬ atp = btp := by
          intro he; subst he
          rw [(typeTagCmp_eq_iff atp atp).mpr rfl] at h2
          simp at h2
        simp [ht]
      | gt =>
        have ht : ¬ atp = btp := by
          intro he; subst he
          rw [(typeTagCmp_eq_iff atp atp).mpr rfl] at h2
          simp at h2
        simp [ht]
    | lt =>
      have hk : ¬ ak = bk := by
        intro he; subst he
        rw [(listNatCmp_eq_iff ak ak).mpr rfl] at h1
        simp at h1
      simp [hk]
    | gt =>
      have hk : ¬ ak = bk := by
        intro he; subst he
        rw [(listNatCmp_eq_iff ak ak).mpr rfl] at h1
        simp at h1
      simp [hk]
  · intro hne
    simp only [keyStateViewCmp]

/-- C3 witness: at a concrete pair whose key bytes differ, the comparison is
the byte comparison. -/
theorem c3_derived_comparison_witness :
    listNatCmp c3SmallBytesBigType.key.v c3BigBytesSmallType.key.v ≠ .eq
  ∧ keyStateViewCmp c3SmallBytesBigType c3BigBytesSmallType
      = listNatCmp c3SmallBytesBigType.key.v c3BigBytesSmallType.key.v :=
  ⟨by decide,
   (c3_derived_comparison c3SmallBytesBigType c3BigBytesSmallType).2 (by decide)⟩

/-- C4: under the declared table_extension gas schedule, `add_box` on a
value of serialized size `n` costs exactly `500*MUL + 10*MUL*n`, while
`drop_unchecked_box` and `box_length` are charged a flat `100*MUL` base with
no per-byte or per-entry component, independent of the table's prior size. -/
theorem c4_table_extension_costs (MUL n m k : Nat) :
    addBoxCost (tableExtensionGasSchedule MUL) n = 500 * MUL + 10 * MUL * n
  ∧ dropUncheckedBoxCost (tableExtensionGasSchedule MUL) m = 100 * MUL
  ∧ boxLengthCost (tableExtensionGasSchedule MUL) m = 100 * MUL
  ∧ dropUncheckedBoxCost (tableExtensionGasSchedule MUL) m
      = dropUncheckedBoxCost (tableExtensionGasSchedule MUL) k
  ∧ boxLengthCost (tableExtensionGasSchedule MUL) m
      = boxLengthCost (tableExtensionGasSchedule MUL) k :=
  ⟨rfl, rfl, rfl, rfl, rfl⟩

/-- C5: each indexer table's primary key is exactly the natural identity the
spec lists, `global_states` and `table_states` carry the listed columns, and
no surrogate key column exists: every primary-key column is one of the
declared data columns, and no table has an `id` column. -/
theorem c5_natural_primary_keys :
    transactions.primaryKey = ["tx_order"]
  ∧ events.primaryKey = ["event_index", "tx_order"]
  ∧ global_states.primaryKey = ["object_id"]
  ∧ global_states.columns.map Prod.fst
      = ["object_id", "owner", "flag", "value", "state_root", "size",
         "object_type", "tx_order", "state_index", "created_at", "updated_at"]
  ∧ table_change_sets.primaryKey = ["tx_order", "state_index"]
  ∧ table_states.primaryKey = ["table_handle", "key_hex"]
  ∧ table_states.columns.map Prod.fst
      = ["table_handle", "key_hex", "key_str", "value", "key_type",
         "value_type", "tx_order", "state_index", "created_at", "updated_at"]
  ∧ (indexerSchema.all fun t =>
      (t.primaryKey.all fun c => (t.columns.map Prod.fst).contains c)
        && !((t.columns.map Prod.fst).contains "id")) = true := by
  decide

/-- C6: for every `StateChangeSet` `cs`, converting to `StateChangeSetView`
and back reproduces `cs` exactly: `new_tables`, `removed_tables`, and each
per-handle `TableChange` (its entries and its `size_increment`) are
recovered, with every Op tag preserved and Delete carrying no payload in
either direction. -/
theorem c6_state_change_set_roundtrip (cs : StateChangeSet) :
    StateChangeSet.ofView (StateChangeSetView.ofStateChangeSet cs) = cs := by
  obtain ⟨nt, rt, ch⟩ := cs
  simp only [StateChangeSetView.ofStateChangeSet, StateChangeSet.ofView,
    StateChangeSet.mk.injEq, true_and]
  exact changesEntries_roundtrip ch

/-- C7: `into_global_state_filter` sends `MultiChainAddress` to
`Owner(resolve_address)` for every externally resolved address, ignoring the
`multichain_id` and `address` fields entirely, and maps every other filter
variant field-for-field to its same-named canonical variant. -/
theorem c7_filter_conversion :
    (∀ (mid1 mid2 : Nat) (addr1 addr2 : String) (a : AccountAddress),
      GlobalStateFilterView.intoGlobalStateFilter
          (.multiChainAddress mid1 addr1) a = GlobalStateFilter.owner a
      ∧ GlobalStateFilterView.intoGlobalStateFilter
          (.multiChainAddress mid1 addr1) a
        = GlobalStateFilterView.intoGlobalStateFilter
            (.multiChainAddress mid2 addr2) a)
  ∧ (∀ (ot : StructTagView) (ow : AccountAddressView) (a : AccountAddress),
      GlobalStateFilterView.intoGlobalStateFilter (.objectTypeWithOwner ot ow) a
        = GlobalStateFilter.objectTypeWithOwner ot.v ow.v)
  ∧ (∀ (ot : StructTagView) (a : AccountAddress),
      GlobalStateFilterView.intoGlobalStateFilter (.objectType ot) a
        = GlobalStateFilter.objectType ot.v)
  ∧ (∀ (ow : AccountAddressView) (a : AccountAddress),
      GlobalStateFilterView.intoGlobalStateFilter (.owner ow) a
        = GlobalStateFilter.owner ow.v)
  ∧ (∀ (oid : ObjectID) (a : AccountAddress),
      GlobalStateFilterView.intoGlobalStateFilter (.objectId oid) a
        = GlobalStateFilter.objectId oid) :=
  ⟨fun _ _ _ _ _ => ⟨rfl, rfl⟩, fun _ _ _ => rfl, fun _ _ => rfl,
   fun _ _ => rfl, fun _ _ => rfl⟩

/-- C8: decoded/annotated fields are never required or trusted on the way
in: two `StateView`s agreeing on `value` and `value_type` convert to equal
`State`s whatever their `decoded_value`; two `KeyStateView`s agreeing on
`key` and `key_type` convert to equal `KeyState`s whatever their
`decoded_key`; and `KeyStateView::from_str` always produces a view with
`decoded_key` absent. -/
theorem c8_decoded_fields_untrusted :
    (∀ v1 v2 : StateView, v1.value = v2.value → v1.value_type = v2.value_type →
      State.ofView v1 = State.ofView v2)
  ∧ (∀ k1 k2 : KeyStateView, k1.key = k2.key → k1.key_type = k2.key_type →
      KeyState.ofView k1 = KeyState.ofView k2)
  ∧ (∀ (parse : String → Except String KeyState) (s : String)
      (v : KeyStateView),
      KeyStateView.fromStr parse s = .ok v → v.decoded_key = none) := by
  refine ⟨?_, ?_, ?_⟩
  · intro v1 v2 hv ht
    unfold State.ofView
    rw [hv, ht]
  · intro k1 k2 hk ht
    unfold KeyState.ofView
    rw [hk, ht]
  · intro parse s v h
    unfold KeyStateView.fromStr at h
    cases hp : parse s with
    | error e =>
      rw [hp] at h
      simp [Except.map] at h
    | ok k =>
      rw [hp] at h
      simp only [Except.map] at h
      cases h
      rfl

/-- C8 witness: concrete views differing only in the decoded field convert
equally, and a concrete successful parse yields an absent decoded key. -/
theorem c8_decoded_fields_untrusted_witness :
    State.ofView c8StateViewA = State.ofView c8StateViewB
  ∧ KeyState.ofView c8KeyViewA = KeyState.ofView c8KeyViewB
  ∧ (KeyStateView.ofKeyState { key := [3], key_type := .u64 }).decoded_key
      = none :=
  ⟨c8_decoded_fields_untrusted.1 c8StateViewA c8StateViewB rfl rfl,
   c8_decoded_fields_untrusted.2.1 c8KeyViewA c8KeyViewB rfl rfl,
   c8_decoded_fields_untrusted.2.2 c8Parse "0x03u64" _ rfl⟩

/-- C9: in the declared gas schedule, with a positive scaling constant, the
failed-load surcharge is strictly positive and strictly smaller than the
cost of any successful load:
`0 < load_failure < load_base <= load_base + load_per_byte * n`. -/
theorem c9_load_gas_bounds (MUL n : Nat) (h : 0 < MUL) :
    0 < (tableExtensionGasSchedule MUL).load_failure
  ∧ (tableExtensionGasSchedule MUL).load_failure
      < (tableExtensionGasSchedule MUL).load_base
  ∧ (tableExtensionGasSchedule MUL).load_base
      ≤ loadCost (tableExtensionGasSchedule MUL) n := by
  refine ⟨?_, ?_, ?_⟩ <;> simp [tableExtensionGasSchedule, loadCost] <;> omega

/-- C9 witness: the bounds hold at the concrete scaling constant 1 and
serialized size 3. -/
theorem c9_load_gas_bounds_witness :
    0 < (tableExtensionGasSchedule 1).load_failure
  ∧ (tableExtensionGasSchedule 1).load_failure
      < (tableExtensionGasSchedule 1).load_base
  ∧ (tableExtensionGasSchedule 1).load_base
      ≤ loadCost (tableExtensionGasSchedule 1) 3 :=
  c9_load_gas_bounds 1 3 (by decide)

/-- C10: for every invocation of the account import command, the execution
trace begins with the secret mnemonic phrase printed Debug-formatted to
standard output, before any keystore import attempt and regardless of
whether context building or the import subsequently succeeds or fails. -/
theorem c10_mnemonic_printed_first (cmd : ImportCommand)
    (buildContext : Except String WalletContext)
    (importFn : WalletContext → String → Except String AccountAddress) :
    (importCommandTrace cmd buildContext importFn).1.head?
      = some (CliEvent.stdout (rustDebugFormat cmd.mnemonic_phrase)) := by
  cases buildContext with
  | error e => rfl
  | ok ctx =>
    cases h : importFn ctx cmd.mnemonic_phrase <;>
      simp [importCommandTrace, h]
